import Mathlib

/-!
Verification of the gotty-client live terminal session engine
(`cmd/gotty-client` of ubersdr-gotty-client), shallowly embedded in Lean.

Byte values are modelled as `Nat` (always < 256 where they come from the
wire); wire frames are `List Nat`; fallible operations return `Except`
or `Option`; goroutine loop bodies become step functions from the event
the `select` delivered to the action the body takes.
-/

namespace GottyClient

/-! ## Message tag tables (main.go, the two `const` blocks) -/

/-- V1 tag `OutputV1 = '0'`. -/
def OutputV1 : Nat := 48
/-- V1 tag `PongV1 = '1'`. -/
def PongV1 : Nat := 49
/-- V1 tag `SetWindowTitleV1 = '2'`. -/
def SetWindowTitleV1 : Nat := 50
/-- V1 tag `SetPreferencesV1 = '3'`. -/
def SetPreferencesV1 : Nat := 51
/-- V1 tag `SetReconnectV1 = '4'`. -/
def SetReconnectV1 : Nat := 52
/-- V1 tag `InputV1 = '0'`. -/
def InputV1 : Nat := 48
/-- V1 tag `PingV1 = '1'`. -/
def PingV1 : Nat := 49
/-- V1 tag `ResizeTerminalV1 = '2'`. -/
def ResizeTerminalV1 : Nat := 50

/-- V2 tag `Output = '1'`. -/
def OutputTag : Nat := 49
/-- V2 tag `Pong = '2'`. -/
def PongTag : Nat := 50
/-- V2 tag `SetWindowTitle = '3'`. -/
def SetWindowTitleTag : Nat := 51
/-- V2 tag `SetPreferences = '4'`. -/
def SetPreferencesTag : Nat := 52
/-- V2 tag `SetReconnect = '5'`. -/
def SetReconnectTag : Nat := 53
/-- V2 tag `Input = '1'`. -/
def InputTag : Nat := 49
/-- V2 tag `Ping = '2'`. -/
def PingTag : Nat := 50
/-- V2 tag `ResizeTerminal = '3'`. -/
def ResizeTerminalTag : Nat := 51

/-- Structure `gottyMessageType` of main.go: the eight one-byte tags
selected for a connection. -/
structure gottyMessageType where
  output         : Nat
  pong           : Nat
  setWindowTitle : Nat
  setPreferences : Nat
  setReconnect   : Nat
  input          : Nat
  ping           : Nat
  resizeTerminal : Nat
  deriving DecidableEq, Repr

/-- Function `Client.initMessageType` of main.go: the table chosen from the `V2`
flag, fixed before any message is sent or parsed. -/
def initMessageType (v2 : Bool) : gottyMessageType :=
  if v2 then
    { output         := OutputTag
      pong           := PongTag
      setWindowTitle := SetWindowTitleTag
      setPreferences := SetPreferencesTag
      setReconnect   := SetReconnectTag
      input          := InputTag
      ping           := PingTag
      resizeTerminal := ResizeTerminalTag }
  else
    { output         := OutputV1
      pong           := PongV1
      setWindowTitle := SetWindowTitleV1
      setPreferences := SetPreferencesV1
      setReconnect   := SetReconnectV1
      input          := InputV1
      ping           := PingV1
      resizeTerminal := ResizeTerminalV1 }

/-- The server-to-client tags of a table, in declaration order. -/
def serverTags (m : gottyMessageType) : List Nat :=
  [m.output, m.pong, m.setWindowTitle, m.setPreferences, m.setReconnect]

/-- The client-to-server tags of a table, in declaration order. -/
def clientTags (m : gottyMessageType) : List Nat :=
  [m.input, m.ping, m.resizeTerminal]

/-- Semantic server-to-client message kinds. -/
inductive ServerKind where
  | output | pong | setWindowTitle | setPreferences | setReconnect
  deriving DecidableEq, Repr

/-- Semantic client-to-server message kinds. -/
inductive ClientKind where
  | input | ping | resizeTerminal
  deriving DecidableEq, Repr

/-- Encoding: the tag byte a table assigns to a server-to-client kind. -/
def serverTagOf (m : gottyMessageType) : ServerKind → Nat
  | .output => m.output
  | .pong => m.pong
  | .setWindowTitle => m.setWindowTitle
  | .setPreferences => m.setPreferences
  | .setReconnect => m.setReconnect

/-- Encoding: the tag byte a table assigns to a client-to-server kind. -/
def clientTagOf (m : gottyMessageType) : ClientKind → Nat
  | .input => m.input
  | .ping => m.ping
  | .resizeTerminal => m.resizeTerminal

/-- Decoding a server-to-client tag, in the dispatch order of
`Client.readLoop`'s `switch msg.Data[0]`. -/
def decodeServerTag (m : gottyMessageType) (t : Nat) : Option ServerKind :=
  if t = m.output then some .output
  else if t = m.pong then some .pong
  else if t = m.setWindowTitle then some .setWindowTitle
  else if t = m.setPreferences then some .setPreferences
  else if t = m.setReconnect then some .setReconnect
  else none

/-- Decoding a client-to-server tag by first match in the table. -/
def decodeClientTag (m : gottyMessageType) (t : Nat) : Option ClientKind :=
  if t = m.input then some .input
  else if t = m.ping then some .ping
  else if t = m.resizeTerminal then some .resizeTerminal
  else none

/-! ## Base64 (Go `encoding/base64` StdEncoding, as called by `readLoop`)

`base64.StdEncoding.DecodeString` uses the standard alphabet with `=`
padding, skips carriage returns and newlines, rejects any other byte
outside the alphabet, and requires the padded length to be a multiple
of four with padding only at the very end. -/

/-- Six-bit value of a standard-alphabet base64 byte, `none` for bytes
outside the alphabet (including `=`, handled by the group decoder). -/
def b64Val (c : Nat) : Option Nat :=
  if 65 ≤ c ∧ c ≤ 90 then some (c - 65)
  else if 97 ≤ c ∧ c ≤ 122 then some (c - 71)
  else if 48 ≤ c ∧ c ≤ 57 then some (c + 4)
  else if c = 43 then some 62
  else if c = 47 then some 63
  else none

/-- Decode newline-free base64 input four bytes at a time; `=` padding is
legal only in the last one or two positions of the final group. -/
def b64DecodeGroups : List Nat → Option (List Nat)
  | [] => some []
  | a :: b :: c :: d :: rest =>
    match b64Val a, b64Val b with
    | some va, some vb =>
      if c = 61 then
        if d = 61 ∧ rest = [] then some [va * 4 + vb / 16]
        else none
      else
        match b64Val c with
        | some vc =>
          if d = 61 then
            if rest = [] then some [va * 4 + vb / 16, (vb % 16) * 16 + vc / 4]
            else none
          else
            match b64Val d with
            | some vd =>
              match b64DecodeGroups rest with
              | some tail =>
                some ([va * 4 + vb / 16, (vb % 16) * 16 + vc / 4,
                       (vc % 4) * 64 + vd] ++ tail)
              | none => none
            | none => none
        | none => none
    | _, _ => none
  | _ => none

/-- Go's `base64.StdEncoding.DecodeString` on a byte list: newlines and
carriage returns are skipped, then groups of four are decoded. -/
def base64Decode (s : List Nat) : Option (List Nat) :=
  b64DecodeGroups (s.filter (fun c => decide (c ≠ 10) && decide (c ≠ 13)))

/-! ## Output pump: `Client.readLoop` -/

/-- Result of the `c.Conn.ReadMessage()` race entry of `readLoop`'s
`select`: an error (close or otherwise) or the received frame bytes. -/
inductive WSRead where
  | err (isCloseError : Bool)
  | ok (data : List Nat)
  deriving DecidableEq, Repr

/-- What one `readLoop` iteration does: die because the poison channel
fired, exit escalating the poison channel, or continue after writing
the given bytes to `c.Output`. -/
inductive ReadAction where
  | exitDie
  | exitPoison
  | continue (written : List Nat)
  deriving DecidableEq, Repr

/-- The title escape sequence `\033]0;%s\007` written for a
SetWindowTitle frame. -/
def titleEscape (payload : List Nat) : List Nat :=
  27 :: 93 :: 48 :: 59 :: payload ++ [7]

/-- One iteration of `Client.readLoop`: the event is `none` when the
poison channel was readable, otherwise the websocket read result. The
body mirrors the `select` plus `switch msg.Data[0]` of main.go. -/
def readLoopStep (m : gottyMessageType) (ev : Option WSRead) : ReadAction :=
  match ev with
  | none => .exitDie
  | some (.err _) => .exitPoison
  | some (.ok []) => .exitPoison
  | some (.ok (tag :: payload)) =>
    if tag = m.output then
      match base64Decode payload with
      | none => .continue []
      | some buf => .continue buf
    else if tag = m.pong then .continue []
    else if tag = m.setWindowTitle then .continue (titleEscape payload)
    else if tag = m.setPreferences then .continue []
    else if tag = m.setReconnect then .continue []
    else .continue []

/-! ## Shutdown signal: the `poison` channel, `openPoison`, `die`,
`Client.ExitLoop` -/

/-- The `poison chan bool` channel: nothing is ever sent on it, so its
whole observable state is whether it has been closed. -/
structure PoisonChan where
  closed : Bool
  deriving DecidableEq, Repr

/-- Go `close` on a channel: panics if the channel is already closed. -/
def closeChan (p : PoisonChan) : Except Unit PoisonChan :=
  if p.closed then .error () else .ok { closed := true }

/-- Enumeration `poisonReason` of main.go. -/
inductive poisonReason where
  | committedSuicide
  | killed
  deriving DecidableEq, Repr

/-- Result of `openPoison`: the channel state afterwards, the returned
reason, and whether a panic escaped to the caller. -/
structure OpenPoisonResult where
  chan  : PoisonChan
  reason : poisonReason
  panicked : Bool
  deriving DecidableEq, Repr

/-- Function `openPoison` of main.go: `close(poison)` under a deferred `recover`,
so a double close's panic is absorbed and never propagates. -/
def openPoison (p : PoisonChan) : OpenPoisonResult :=
  match closeChan p with
  | .ok p' => { chan := p', reason := .committedSuicide, panicked := false }
  | .error _ => { chan := p, reason := .committedSuicide, panicked := false }

/-- A loop's read-only check of the shutdown signal: a receive from the
poison channel completes (with the zero value) exactly when the channel
is closed, which is how every `select { case <-c.poison: ... }` observes
the signal. -/
def poisonSignaled (p : PoisonChan) : Bool :=
  p.closed

/-- Function `Client.ExitLoop` of main.go: the external shutdown trigger is just
`openPoison` on the client's poison channel. -/
def ExitLoop (p : PoisonChan) : OpenPoisonResult :=
  openPoison p

/-! ## Input pump: `Client.writeLoop` -/

/-- Size of `buff := make([]byte, 128)`: the read buffer size of `writeLoop`,
hence the `io.Reader` contract bound on one read. -/
def writeLoopBuffSize : Nat := 128

/-- The event one `writeLoop` iteration acts on: the poison channel was
readable, the select/read produced a non-EOF error, the escape-proxy
read hit EOF, or it returned `data` (the filled prefix `buff[:size]`;
a read returning `size <= 0` is `readData []`). -/
inductive WriteEvent where
  | poisoned
  | readErr
  | readEOF
  | readData (data : List Nat)
  deriving DecidableEq, Repr

/-- What one `writeLoop` iteration does: die on poison, exit escalating
the poison channel, or continue after attempting the given socket
writes (each write is one frame). -/
inductive WriteAction where
  | exitDie
  | exitPoison
  | continue
  deriving DecidableEq, Repr

/-- One iteration of `Client.writeLoop`, mirroring main.go: on EOF it
writes one frame `input tag :: [4]` (EOT) and continues unless that
write fails; a read of zero bytes produces no frame; data is framed as
`input tag :: data`. `writeOk` is whether `c.write` succeeds this
iteration. Returns the frames handed to `c.write` and the action. -/
def writeLoopStep (m : gottyMessageType) (writeOk : Bool) (ev : WriteEvent) :
    List (List Nat) × WriteAction :=
  match ev with
  | .poisoned => ([], .exitDie)
  | .readErr => ([], .exitPoison)
  | .readEOF =>
    ([[m.input, 4]], if writeOk then .continue else .exitPoison)
  | .readData data =>
    if data.length = 0 then ([], .continue)
    else ([m.input :: data],
          if writeOk then .continue else .exitPoison)

/-- A whole run of `writeLoop` over a sequence of iteration events
(writes all succeeding): the frames written, and whether the loop has
exited by the end of the events. After an exit the remaining events are
not consumed. -/
def runWriteLoop (m : gottyMessageType) : List WriteEvent → List (List Nat) × Bool
  | [] => ([], false)
  | ev :: evs =>
    match writeLoopStep m true ev with
    | (fs, .continue) =>
      match runWriteLoop m evs with
      | (fs', exited) => (fs ++ fs', exited)
    | (fs, _) => (fs, true)

/-! ## Resize pump: `Client.termsizeLoop` -/

/-- Modelled from the spec: `syscallTIOCGWINSZ` lives in a
platform-specific file of this repository that is not under src/; the
spec describes the ResizeTerminal payload as "a fixed-size binary
structure of two unsigned 16-bit fields: rows, then columns". Each
field is serialized as two bytes (low byte first here; the spec leaves
the byte order to the reference implementation). -/
def syscallTIOCGWINSZ (rows cols : Nat) : List Nat :=
  [rows % 256, rows / 256 % 256, cols % 256, cols / 256 % 256]

/-- The frame `append([]byte{c.message.resizeTerminal}, b...)` that
`termsizeLoop` writes for a size query result `b`. -/
def termsizeFrame (m : gottyMessageType) (rows cols : Nat) : List Nat :=
  m.resizeTerminal :: syscallTIOCGWINSZ rows cols

/-- The event one `termsizeLoop` select iteration acts on: poison, or a
SIGWINCH notification whose size query failed, or one that returned
`rows × cols`. -/
inductive ResizeEvent where
  | poisoned
  | winchQueryFailed
  | winch (rows cols : Nat)
  deriving DecidableEq, Repr

/-- What one `termsizeLoop` iteration does. -/
inductive ResizeAction where
  | exitDie
  | continue (frames : List (List Nat))
  deriving DecidableEq, Repr

/-- One iteration of `termsizeLoop`'s `for { select ... } }`: poison
makes it die; a size-query failure is logged only; a successful query
sends one ResizeTerminal frame (a write failure is logged, not fatal). -/
def termsizeLoopStep (m : gottyMessageType) (ev : ResizeEvent) : ResizeAction :=
  match ev with
  | .poisoned => .exitDie
  | .winchQueryFailed => .continue []
  | .winch rows cols => .continue [termsizeFrame m rows cols]

/-! ## Keepalive pump: `Client.pingLoop`, and `Client.Loop`'s join set -/

/-- The frame `[]byte{c.message.ping}` sent by `pingLoop`. -/
def pingFrame (m : gottyMessageType) : List Nat :=
  [m.ping]

/-- What one `pingLoop` iteration does. -/
inductive PingAction where
  | continue (frames : List (List Nat))
  deriving DecidableEq, Repr

/-- One iteration of `Client.pingLoop`: it writes a ping frame, logs a
write failure, sleeps and repeats. Its body contains no `select` on the
poison channel and no `return`, so whatever the poison state and the
write outcome, the iteration continues. -/
def pingLoopStep (m : gottyMessageType) (_poisoned : Bool) (_writeOk : Bool) :
    PingAction :=
  .continue [pingFrame m]

/-- The four pump loops of the spec's I/O Pump. -/
inductive PumpLoop where
  | input | output | resize | ping
  deriving DecidableEq, Repr

/-- The goroutines `Client.Loop` registers on its `WaitGroup` and joins
with `wg.Wait()`, in the order of the three `wg.Add(1)`/`go` pairs of
main.go: `termsizeLoop`, `readLoop`, `writeLoop`. `pingLoop` is started
by `Connect` with a bare `go` and is not registered. -/
def loopsJoinedByLoop : List PumpLoop :=
  [.resize, .output, .input]

/-! ## Handshake: `Client.GetAuthToken` and `Client.Connect`

The HTTP exchange itself is external; its observable result — the
status code and the response body — is the input of the model. The
token extraction mirrors the Go regexp
`var gotty_auth_token = '(.*)'`: leftmost match of the literal prefix
followed by a greedy capture that stops at the last quote on the same
line (RE2 `.` does not match a newline). -/

/-- The literal part of the auth-token pattern. -/
def authTokenPrefix : List Char :=
  "var gotty_auth_token = '".data

/-- Greedy `(.*)'` on a single line: the prefix of `line` that ends just
before its last single quote, `none` when the line has no quote. -/
def captureToLastQuote : List Char → Option (List Char)
  | [] => none
  | c :: cs =>
    match captureToLastQuote cs with
    | some cap => some (c :: cap)
    | none => if c = '\'' then some [] else none

/-- Try the whole auth-token pattern at the head of `l`. -/
def authTokenMatchAt (l : List Char) : Option (List Char) :=
  if authTokenPrefix.isPrefixOf l then
    captureToLastQuote ((l.drop authTokenPrefix.length).takeWhile (· ≠ '\n'))
  else none

/-- Capture of `re.FindStringSubmatch`: try the pattern at each position
from the left; `none` when the pattern is absent from the body. -/
def findAuthToken : List Char → Option (List Char)
  | [] => none
  | c :: cs =>
    match authTokenMatchAt (c :: cs) with
    | some cap => some cap
    | none => findAuthToken cs

/-- The observable result of the auth-token HTTP GET. -/
structure HTTPResponse where
  status : Nat
  body : List Char

/-- Function `Client.GetAuthToken` after the HTTP GET returned: any status other
than 200 is an error before the body is read; a body without the
pattern is the "please upgrade your GoTTY server" error; otherwise the
captured token is returned. -/
def GetAuthToken (resp : HTTPResponse) : Except String (List Char) :=
  if resp.status = 200 then
    match findAuthToken resp.body with
    | none => .error "cannot fetch GoTTY auth-token, please upgrade your GoTTY server"
    | some tok => .ok tok
  else
    .error "unknown status code"

/-- Where `Client.Connect` ends up: failing before `Dialer.Dial` is ever
reached, or dialing with the fetched token. -/
inductive ConnectOutcome where
  | failedBeforeDial (err : String)
  | dialed (authToken : List Char)
  deriving DecidableEq, Repr

/-- Function `Client.Connect` up to the dial: it calls `GetAuthToken` first and
returns its error before the websocket URL is even derived, so no
socket is dialed on an auth-token failure. -/
def ConnectModel (resp : HTTPResponse) : ConnectOutcome :=
  match GetAuthToken resp with
  | .error e => .failedBeforeDial e
  | .ok tok => .dialed tok

/-- Startup of `Client.Loop`: when not yet connected it runs `Connect`
and returns its error without starting any goroutine; on success the
started pump loops are `pingLoop` (inside `Connect`) plus the three
loops `Loop` registers and joins. -/
def LoopStartedLoops (connected : Bool) (resp : HTTPResponse) :
    Except String (List PumpLoop) :=
  if connected then .ok loopsJoinedByLoop
  else
    match ConnectModel resp with
    | .failedBeforeDial e => .error e
    | .dialed _ => .ok (PumpLoop.ping :: loopsJoinedByLoop)

/-! ## `ParseURL` and `NewClient`

`ParseURL` leans on Go's `net/url`. The model embeds the fragment of
`url.Parse`/`URL.String` that `ParseURL` observes: the control-byte
check, `getscheme` (ASCII scheme letters, lowercased at the colon), and
reassembly `scheme ++ ":" ++ rest`; host/path/query normalization
inside `rest` is not modelled. -/

/-- ASCII letter, as in `net/url.getscheme`. -/
def isSchemeAlpha (c : Char) : Bool :=
  (decide ('a' ≤ c) && decide (c ≤ 'z')) || (decide ('A' ≤ c) && decide (c ≤ 'Z'))

/-- ASCII digit. -/
def isSchemeDigit (c : Char) : Bool :=
  decide ('0' ≤ c) && decide (c ≤ '9')

/-- ASCII lowercasing, as `strings.ToLower` acts on scheme bytes. -/
def asciiLower (c : Char) : Char :=
  if 'A' ≤ c ∧ c ≤ 'Z' then Char.ofNat (c.toNat + 32) else c

/-- Result of `net/url.getscheme`. -/
inductive SchemeResult where
  | noScheme
  | missingScheme
  | found (scheme rest : List Char)
  deriving DecidableEq, Repr

/-- The scan of `net/url.getscheme`: `acc` holds the bytes already
accepted as scheme characters (so `acc = []` is Go's `i == 0`). -/
def getschemeAux (acc : List Char) : List Char → SchemeResult
  | [] => .noScheme
  | c :: cs =>
    if isSchemeAlpha c then getschemeAux (acc ++ [c]) cs
    else if isSchemeDigit c || c = '+' || c = '-' || c = '.' then
      if acc.isEmpty then .noScheme else getschemeAux (acc ++ [c]) cs
    else if c = ':' then
      if acc.isEmpty then .missingScheme
      else .found (acc.map asciiLower) cs
    else .noScheme

/-- Function `getscheme` of Go's net/url. -/
def getscheme (l : List Char) : SchemeResult :=
  getschemeAux [] l

/-- Control-byte rejection of Go's net/url: `c < 0x20` or `c == 0x7f`. -/
def containsCTL (l : List Char) : Bool :=
  l.any fun c => decide (c.toNat < 32) || decide (c.toNat = 127)

/-- The scheme-level view of a parsed URL: its scheme (possibly empty)
and everything after the scheme colon. -/
structure GoURL where
  scheme : List Char
  rest : List Char
  deriving DecidableEq, Repr

/-- The scheme-relevant fragment of `net/url.Parse`. -/
def urlParse (l : List Char) : Except String GoURL :=
  if containsCTL l then .error "net/url: invalid control character in URL"
  else
    match getscheme l with
    | .missingScheme => .error "missing protocol scheme"
    | .noScheme => .ok { scheme := [], rest := l }
    | .found s r => .ok { scheme := s, rest := r }

/-- The matching fragment of `net/url.URL.String`. -/
def urlString (u : GoURL) : List Char :=
  if u.scheme.isEmpty then u.rest else u.scheme ++ ':' :: u.rest

/-- Function `ParseURL` of main.go with explicit fuel for its self-recursion:
parse; keep an http/https URL (normalized by `String()`); anything else
is retried once with `http://` prepended. -/
def ParseURLF : Nat → List Char → Except String (List Char)
  | 0, _ => .error "recursion limit exceeded"
  | n + 1, input =>
    match urlParse input with
    | .error e => .error e
    | .ok parsed =>
      if parsed.scheme = "http".data ∨ parsed.scheme = "https".data then
        .ok (urlString parsed)
      else
        ParseURLF n ("http://".data ++ input)

/-- Function `ParseURL` of main.go; fuel 2 is exact, by `ParseURLF_fuel_indep`. -/
def ParseURL (s : String) : Except String String :=
  (ParseURLF 2 s.data).map fun l => String.mk l

/-- The fields of `Client` that `NewClient` fills with non-zero values,
plus the flags relevant here (Go zero values for the rest). -/
structure ClientModel where
  URL : String
  V2 : Bool
  poison : PoisonChan
  Connected : Bool
  deriving DecidableEq, Repr

/-- Function `NewClient` of main.go: parse/normalize the URL and build the
client around it, with a fresh (open) poison channel. -/
def NewClient (inputURL : String) : Except String ClientModel :=
  match ParseURL inputURL with
  | .error e => .error e
  | .ok u =>
    .ok { URL := u, V2 := false, poison := { closed := false }, Connected := false }

/-! ## Theorems -/

/-- C6: for each protocol revision, the five server-to-client tags are
pairwise distinct and the three client-to-server tags are pairwise
distinct, and decoding the tag of an encoded kind (in `readLoop`'s
dispatch order) returns that same kind. -/
theorem tag_tables_injective_roundtrip :
    ∀ v2 : Bool,
      (serverTags (initMessageType v2)).Nodup ∧
      (clientTags (initMessageType v2)).Nodup ∧
      (∀ k, decodeServerTag (initMessageType v2)
              (serverTagOf (initMessageType v2) k) = some k) ∧
      (∀ k, decodeClientTag (initMessageType v2)
              (clientTagOf (initMessageType v2) k) = some k) := by
  intro v2
  cases v2 <;>
    exact ⟨by decide, by decide, fun k => by cases k <;> rfl,
           fun k => by cases k <;> rfl⟩

/-- C2 counterexample: the byte `'1'` (49) is `PongV1` in the V1
server-to-client table and `Output` in the V2 table, so the two
revisions' tag tables are not disjoint. -/
theorem tag_tables_disjoint_counterexample :
    serverTagOf (initMessageType false) .pong = 49 ∧
    serverTagOf (initMessageType true) .output = 49 ∧
    ¬ (serverTags (initMessageType false)).inter (serverTags (initMessageType true)) = [] := by
  decide

/-- C2 amended: the V1 and V2 tag tables overlap rather than being
disjoint — the server-to-client tables share exactly the bytes
`'1'..'4'` and the client-to-server tables share exactly `'1'`,`'2'`;
a frame is interpreted under the single revision fixed by
`initMessageType` before any message is sent or parsed, not by its tag
byte alone. -/
theorem tag_tables_overlap :
    (serverTags (initMessageType false)).inter (serverTags (initMessageType true)) =
      [49, 50, 51, 52] ∧
    (clientTags (initMessageType false)).inter (clientTags (initMessageType true)) =
      [49, 50] := by
  decide

/-- C3: signaling the shutdown signal is idempotent: after a first
signal the channel is observed signaled, a second `openPoison` (also
via `ExitLoop` twice) absorbs the double-close panic so no panic or
error reaches the caller, and the signal still reads as signaled. -/
theorem openPoison_idempotent (p : PoisonChan) :
    (openPoison p).panicked = false ∧
    poisonSignaled (openPoison p).chan = true ∧
    (openPoison (openPoison p).chan).panicked = false ∧
    poisonSignaled (openPoison (openPoison p).chan).chan = true ∧
    ExitLoop (ExitLoop p).chan = openPoison (openPoison p).chan := by
  obtain ⟨c⟩ := p
  cases c <;> decide

/-- C1 counterexample: `Client.Loop` joins only three goroutines — the
ping loop is not registered on the `WaitGroup` — and a `pingLoop`
iteration continues even with the shutdown signal set, so the blocking
`Loop` call neither receives nor waits for a ping-loop completion
acknowledgement. -/
theorem loop_joins_three_not_four :
    PumpLoop.ping ∉ loopsJoinedByLoop ∧
    loopsJoinedByLoop.length = 3 ∧
    pingLoopStep (initMessageType false) true true =
      .continue [pingFrame (initMessageType false)] := by
  decide

/-- C1 amended: when the shutdown signal is observed, the three joined
loops (Resize, Output, Input) each exit their select, and `Loop`'s
`wg.Wait()` returns after exactly those three loop-completion
acknowledgements; the Ping loop is started by `Connect`, is not joined
by `Loop`, and its iterations continue regardless of the signal. -/
theorem shutdown_three_joined_loops (m : gottyMessageType) (poisoned writeOk : Bool) :
    termsizeLoopStep m .poisoned = .exitDie ∧
    readLoopStep m none = .exitDie ∧
    writeLoopStep m writeOk .poisoned = ([], .exitDie) ∧
    loopsJoinedByLoop = [.resize, .output, .input] ∧
    PumpLoop.ping ∉ loopsJoinedByLoop ∧
    pingLoopStep m poisoned writeOk = .continue [pingFrame m] :=
  ⟨rfl, rfl, rfl, rfl, by decide, rfl⟩

/-- C7 counterexample: with the V1 table, an input-loop run that reads
EOF twice (all writes succeeding) hands two EOT frames to the socket
and has not exited — after sending the EOT frame the loop `continue`s
instead of exiting, so "exactly one frame ... before exiting" fails. -/
theorem eot_frame_counterexample :
    runWriteLoop (initMessageType false) [.readEOF, .readEOF] =
      ([[48, 4], [48, 4]], false) ∧
    ¬ ((runWriteLoop (initMessageType false) [.readEOF, .readEOF]).1.length = 1 ∧
       (runWriteLoop (initMessageType false) [.readEOF, .readEOF]).2 = true) := by
  decide

/-- C7 amended: on each local end-of-input read, the input loop sends
exactly one frame, the active revision's Input tag byte followed by the
single payload byte 4, and then continues the loop (a further EOF read
sends the frame again); it exits — escalating the shutdown signal —
only when that write fails. -/
theorem eot_frame_on_eof (m : gottyMessageType) (writeOk : Bool) :
    writeLoopStep m writeOk .readEOF =
      ([[m.input, 4]], if writeOk then .continue else .exitPoison) :=
  rfl

/-- C8: every frame the resize loop sends for a terminal of `rows` rows
and `cols` columns is the active revision's ResizeTerminal tag byte
followed by a 4-byte payload of two unsigned 16-bit fields, rows first
then columns (payload modelled from the spec, `syscallTIOCGWINSZ` not
being under src/); for 24 rows × 80 columns under V1 the frame is
`['2', 24, 0, 80, 0]`. -/
theorem resize_frame_format (v2 : Bool) (rows cols : Nat) :
    termsizeFrame (initMessageType v2) rows cols =
      (initMessageType v2).resizeTerminal ::
        [rows % 256, rows / 256 % 256, cols % 256, cols / 256 % 256] ∧
    (syscallTIOCGWINSZ rows cols).length = 4 ∧
    termsizeLoopStep (initMessageType v2) (.winch rows cols) =
      .continue [termsizeFrame (initMessageType v2) rows cols] ∧
    termsizeFrame (initMessageType false) 24 80 = [50, 24, 0, 80, 0] :=
  ⟨rfl, rfl, rfl, by decide⟩

/-- C10: under the `io.Reader` contract for `writeLoop`'s 128-byte
buffer, a read of zero bytes hands no frame to the socket, and a read
of data frames it as the Input tag followed by the data itself — a
non-empty payload of at most 128 bytes. -/
theorem input_frames_bounded (m : gottyMessageType) (writeOk : Bool)
    (data : List Nat) (hle : data.length ≤ writeLoopBuffSize) :
    (data = [] → writeLoopStep m writeOk (.readData data) = ([], .continue)) ∧
    (data ≠ [] →
      writeLoopStep m writeOk (.readData data) =
        ([m.input :: data], if writeOk then .continue else .exitPoison) ∧
      1 ≤ data.length ∧ data.length ≤ 128) := by
  constructor
  · intro h
    subst h
    rfl
  · intro h
    refine ⟨?_, ?_, ?_⟩
    · have hlen : data.length ≠ 0 := fun h0 => h (List.length_eq_zero.mp h0)
      simp [writeLoopStep, hlen]
    · exact Nat.one_le_iff_ne_zero.mpr fun h0 => h (List.length_eq_zero.mp h0)
    · exact hle

/-- C10 witness: the one-byte read `[97]` within the buffer bound is
framed as `['0', 97]` with a one-byte payload. -/
theorem input_frames_bounded_witness :
    writeLoopStep (initMessageType false) true (.readData [97]) =
      ([[48, 97]], .continue) ∧
    1 ≤ ([97] : List Nat).length ∧ ([97] : List Nat).length ≤ 128 := by
  obtain ⟨h1, h2, h3⟩ :=
    (input_frames_bounded (initMessageType false) true [97] (by decide)).2 (by decide)
  exact ⟨h1.trans (by decide), h2, h3⟩

/-- C5: for a received non-empty frame, an unrecognized tag byte and a
malformed base64 Output payload are non-fatal — the frame is dropped
(no bytes written to the output stream), the shutdown signal is not
escalated, and the loop continues — while an empty frame or a read
error (close or not, hence in particular any non-close error)
escalates the shutdown signal and exits the loop. -/
theorem readLoop_nonfatal_and_fatal (m : gottyMessageType) (tag : Nat)
    (payload : List Nat) (isClose : Bool)
    (hunk : tag ∉ serverTags m)
    (hbad : base64Decode payload = none) :
    readLoopStep m (some (.ok (tag :: payload))) = .continue [] ∧
    readLoopStep m (some (.ok (m.output :: payload))) = .continue [] ∧
    readLoopStep m (some (.ok [])) = .exitPoison ∧
    readLoopStep m (some (.err isClose)) = .exitPoison := by
  have h1 : tag ≠ m.output := fun h => hunk (by simp [serverTags, h])
  have h2 : tag ≠ m.pong := fun h => hunk (by simp [serverTags, h])
  have h3 : tag ≠ m.setWindowTitle := fun h => hunk (by simp [serverTags, h])
  have h4 : tag ≠ m.setPreferences := fun h => hunk (by simp [serverTags, h])
  have h5 : tag ≠ m.setReconnect := fun h => hunk (by simp [serverTags, h])
  refine ⟨?_, ?_, rfl, rfl⟩
  · simp [readLoopStep, h1, h2, h3, h4, h5]
  · simp [readLoopStep, hbad]

/-- C5 witness: under the V2 table, tag byte 99 is recognized by no
case, and `!` is not valid base64, so both frames are dropped with the
loop continuing; the empty frame and a non-close read error exit
escalating the shutdown signal. -/
theorem readLoop_nonfatal_and_fatal_witness :
    readLoopStep (initMessageType true) (some (.ok (99 :: [33]))) = .continue [] ∧
    readLoopStep (initMessageType true)
      (some (.ok ((initMessageType true).output :: [33]))) = .continue [] ∧
    readLoopStep (initMessageType true) (some (.ok [])) = .exitPoison ∧
    readLoopStep (initMessageType true) (some (.err false)) = .exitPoison :=
  readLoop_nonfatal_and_fatal (initMessageType true) 99 [33] false
    (by decide) (by decide)

/-- C4: if the auth-token request's status is not 200 or its body lacks
the `var gotty_auth_token = '<token>'` pattern, `GetAuthToken` errors,
`Connect` fails before `Dialer.Dial` is reached, and `Loop` on a
not-yet-connected client returns the error having started no pump
loop. -/
theorem auth_token_failure_no_dial (resp : HTTPResponse)
    (h : resp.status ≠ 200 ∨ findAuthToken resp.body = none) :
    (∃ e, GetAuthToken resp = .error e) ∧
    (∃ e, ConnectModel resp = .failedBeforeDial e) ∧
    (∃ e, LoopStartedLoops false resp = .error e) := by
  have herr : ∃ e, GetAuthToken resp = .error e := by
    rcases h with h | h
    · exact ⟨"unknown status code", by simp [GetAuthToken, h]⟩
    · by_cases h200 : resp.status = 200
      · exact ⟨"cannot fetch GoTTY auth-token, please upgrade your GoTTY server",
          by simp [GetAuthToken, h200, h]⟩
      · exact ⟨"unknown status code", by simp [GetAuthToken, h200]⟩
  obtain ⟨e, he⟩ := herr
  exact ⟨⟨e, he⟩, ⟨e, by simp [ConnectModel, he]⟩,
         ⟨e, by simp [LoopStartedLoops, ConnectModel, he]⟩⟩

/-- C4 witness: a 404 on the auth-token resource makes the handshake
fail with the auth-token error before any socket is dialed and before
any loop is started. -/
theorem auth_token_failure_no_dial_witness :
    (∃ e, GetAuthToken ⟨404, []⟩ = .error e) ∧
    (∃ e, ConnectModel ⟨404, []⟩ = .failedBeforeDial e) ∧
    (∃ e, LoopStartedLoops false ⟨404, []⟩ = .error e) :=
  auth_token_failure_no_dial ⟨404, []⟩ (.inl (by decide))

/-! ### Lemmas about the URL model, leading to C9 -/

/-- The tail `getscheme` returns is a suffix of its input. -/
theorem getschemeAux_found_suffix (l : List Char) :
    ∀ acc s r, getschemeAux acc l = .found s r → r <:+ l := by
  induction l with
  | nil =>
    intro acc s r h
    simp [getschemeAux] at h
  | cons c cs ih =>
    intro acc s r h
    unfold getschemeAux at h
    split at h
    · exact (ih _ _ _ h).trans (List.suffix_cons c cs)
    · split at h
      · split at h
        · cases h
        · exact (ih _ _ _ h).trans (List.suffix_cons c cs)
      · split at h
        · split at h
          · cases h
          · cases h
            exact List.suffix_cons c cs
        · cases h

/-- A suffix of a control-byte-free list is control-byte free. -/
theorem containsCTL_of_suffix (l r : List Char) (h : r <:+ l)
    (hl : containsCTL l = false) : containsCTL r = false := by
  obtain ⟨pre, rfl⟩ := h
  unfold containsCTL at hl ⊢
  rw [List.any_append] at hl
  exact (Bool.or_eq_false_iff.mp hl).2

/-- Reassembling an http/https URL parses back to the same scheme and
rest, provided the rest is control-byte free. -/
theorem urlParse_urlString_http (scheme rest : List Char)
    (hs : scheme = "http".data ∨ scheme = "https".data)
    (hr : containsCTL rest = false) :
    urlParse (urlString ⟨scheme, rest⟩) = .ok ⟨scheme, rest⟩ := by
  rcases hs with h | h <;> subst h
  · have h1 : containsCTL (urlString ⟨"http".data, rest⟩) = containsCTL rest := rfl
    have h2 : getscheme (urlString ⟨"http".data, rest⟩) =
        .found "http".data rest := rfl
    unfold urlParse
    rw [h1, hr, h2]
    rfl
  · have h1 : containsCTL (urlString ⟨"https".data, rest⟩) = containsCTL rest := rfl
    have h2 : getscheme (urlString ⟨"https".data, rest⟩) =
        .found "https".data rest := rfl
    unfold urlParse
    rw [h1, hr, h2]
    rfl

/-- What a successful `urlParse` tells us: no control bytes, and either
no scheme was found (the URL is returned whole) or `getscheme` found
exactly the scheme and rest of the result. -/
theorem urlParse_ok_cases (l : List Char) (u : GoURL) (h : urlParse l = .ok u) :
    containsCTL l = false ∧
    (u = ⟨[], l⟩ ∨ getscheme l = .found u.scheme u.rest) := by
  unfold urlParse at h
  by_cases hctl : containsCTL l
  · rw [if_pos hctl] at h
    cases h
  · rw [if_neg hctl] at h
    refine ⟨Bool.eq_false_iff.mpr hctl, ?_⟩
    cases hg : getscheme l with
    | noScheme =>
      rw [hg] at h
      cases h
      exact Or.inl rfl
    | missingScheme =>
      rw [hg] at h
      cases h
    | found s r =>
      rw [hg] at h
      cases h
      exact Or.inr rfl

/-- One unfolding of the fueled `ParseURL`. -/
theorem ParseURLF_succ (n : Nat) (l : List Char) :
    ParseURLF (n + 1) l =
      match urlParse l with
      | .error e => .error e
      | .ok parsed =>
        if parsed.scheme = "http".data ∨ parsed.scheme = "https".data then
          .ok (urlString parsed)
        else ParseURLF n ("http://".data ++ l) := rfl

/-- After `http://` is prepended the parse always finds scheme `http`,
so the inner call never recurses again: any non-zero fuel gives the
same result. -/
theorem ParseURLF_prepend (n : Nat) (l : List Char) :
    ParseURLF (n + 1) ("http://".data ++ l) =
      ParseURLF 1 ("http://".data ++ l) := by
  rw [ParseURLF_succ n, ParseURLF_succ 0]
  have hg : getscheme ("http://".data ++ l) = .found "http".data ('/' :: '/' :: l) := rfl
  have hc : containsCTL ("http://".data ++ l) = containsCTL l := rfl
  unfold urlParse
  rw [hg, hc]
  by_cases hctl : containsCTL l
  · rw [if_pos hctl]
  · rw [if_neg hctl]
    rfl

/-- The self-recursion of `ParseURL` bottoms out after one prepend: fuel 2
computes the fixpoint. -/
theorem ParseURLF_fuel_indep (n : Nat) (l : List Char) :
    ParseURLF (n + 2) l = ParseURLF 2 l := by
  rw [ParseURLF_succ (n + 1), ParseURLF_succ 1]
  cases urlParse l with
  | error e => rfl
  | ok parsed =>
    show (if parsed.scheme = "http".data ∨ parsed.scheme = "https".data then
            Except.ok (urlString parsed)
          else ParseURLF (n + 1) ("http://".data ++ l)) =
         (if parsed.scheme = "http".data ∨ parsed.scheme = "https".data then
            Except.ok (urlString parsed)
          else ParseURLF 1 ("http://".data ++ l))
    by_cases hs : parsed.scheme = "http".data ∨ parsed.scheme = "https".data
    · rw [if_pos hs, if_pos hs]
    · rw [if_neg hs, if_neg hs, ParseURLF_prepend n l]

/-- A successful `ParseURL` output reparses with scheme http or https. -/
theorem ParseURL_ok_scheme (input out : String) (h : ParseURL input = .ok out) :
    ∃ u, urlParse out.data = .ok u ∧
      (u.scheme = "http".data ∨ u.scheme = "https".data) := by
  unfold ParseURL at h
  rw [ParseURLF_succ 1] at h
  cases hp : urlParse input.data with
  | error e =>
    rw [hp] at h
    cases h
  | ok parsed =>
    rw [hp] at h
    have hred : (match (Except.ok parsed : Except String GoURL) with
        | .error e => .error e
        | .ok parsed =>
          if parsed.scheme = "http".data ∨ parsed.scheme = "https".data then
            Except.ok (urlString parsed)
          else ParseURLF 1 ("http://".data ++ input.data)) =
        (if parsed.scheme = "http".data ∨ parsed.scheme = "https".data then
            Except.ok (urlString parsed)
          else ParseURLF 1 ("http://".data ++ input.data)) := rfl
    rw [hred] at h
    obtain ⟨hctl, hcases⟩ := urlParse_ok_cases input.data parsed hp
    by_cases hs : parsed.scheme = "http".data ∨ parsed.scheme = "https".data
    · rw [if_pos hs] at h
      simp only [Except.map] at h
      cases h
      have hrest : containsCTL parsed.rest = false := by
        rcases hcases with hcase | hcase
        · subst hcase
          exact hctl
        · exact containsCTL_of_suffix input.data parsed.rest
            (getschemeAux_found_suffix input.data [] _ _ hcase) hctl
      refine ⟨⟨parsed.scheme, parsed.rest⟩, ?_, hs⟩
      exact urlParse_urlString_http parsed.scheme parsed.rest hs hrest
    · rw [if_neg hs] at h
      rw [ParseURLF_succ 0] at h
      have hg : urlParse ("http://".data ++ input.data) =
          .ok ⟨"http".data, '/' :: '/' :: input.data⟩ := by
        have hc : containsCTL ("http://".data ++ input.data) =
            containsCTL input.data := rfl
        have hgs : getscheme ("http://".data ++ input.data) =
            .found "http".data ('/' :: '/' :: input.data) := rfl
        unfold urlParse
        rw [hc, hctl, hgs]
        rfl
      rw [hg] at h
      have hred2 : (match (Except.ok (⟨"http".data, '/' :: '/' :: input.data⟩ : GoURL) :
            Except String GoURL) with
          | .error e => .error e
          | .ok parsed =>
            if parsed.scheme = "http".data ∨ parsed.scheme = "https".data then
              Except.ok (urlString parsed)
            else ParseURLF 0 ("http://".data ++ ("http://".data ++ input.data))) =
          Except.ok (urlString ⟨"http".data, '/' :: '/' :: input.data⟩) := rfl
      rw [hred2] at h
      simp only [Except.map] at h
      cases h
      have hrest : containsCTL ('/' :: '/' :: input.data) = false := hctl
      exact ⟨⟨"http".data, '/' :: '/' :: input.data⟩,
        urlParse_urlString_http _ _ (Or.inl rfl) hrest, Or.inl rfl⟩

/-- C9: `ParseURL` terminates — its self-recursion prepends `http://`
at most once, so fuel 2 equals any larger fuel — and a successful
result is a URL whose scheme is http or https; a schemeless
`host:port` input like `localhost:8080` is normalized by prepending
`http://`; and `NewClient` stores the normalized URL in the client. -/
theorem ParseURL_normalizes (input : String) (n : Nat) :
    ParseURLF (n + 2) input.data = ParseURLF 2 input.data ∧
    (∀ out, ParseURL input = .ok out →
      ∃ u, urlParse out.data = .ok u ∧
        (u.scheme = "http".data ∨ u.scheme = "https".data)) ∧
    ParseURL "localhost:8080" = .ok "http://localhost:8080" ∧
    (∀ c, NewClient input = .ok c → ParseURL input = .ok c.URL) := by
  refine ⟨ParseURLF_fuel_indep n input.data,
          fun out h => ParseURL_ok_scheme input out h, rfl, ?_⟩
  intro c h
  unfold NewClient at h
  cases hp : ParseURL input with
  | error e =>
    rw [hp] at h
    cases h
  | ok u =>
    rw [hp] at h
    cases h
    rfl

/-- C9 witness: at input `localhost:8080`, fuel independence at fuel 3,
the normalized output `http://localhost:8080`, its reparse with scheme
http, and `NewClient` storing it. -/
theorem ParseURL_normalizes_witness :
    ParseURLF 3 "localhost:8080".data = ParseURLF 2 "localhost:8080".data ∧
    (∃ u, urlParse "http://localhost:8080".data = .ok u ∧
      (u.scheme = "http".data ∨ u.scheme = "https".data)) ∧
    ParseURL "localhost:8080" = .ok "http://localhost:8080" :=
  ⟨(ParseURL_normalizes "localhost:8080" 1).1,
   (ParseURL_normalizes "localhost:8080" 1).2.1 "http://localhost:8080"
     (ParseURL_normalizes "localhost:8080" 1).2.2.1,
   (ParseURL_normalizes "localhost:8080" 1).2.2.1⟩

end GottyClient
